import Mathlib

/-!
Shallow embedding of the CSV-analysis orchestration script
(`csv_analysis_agent.py` and `main.py`).

The script is plumbing around one external call: it resolves paths, builds a
prompt, consumes a streamed message sequence produced by an external agent
(`claude_code_sdk.query`), and finally reads back a report file the agent is
expected to have written.

Modelling choices:
- The filesystem is a finite map from absolute POSIX paths to text contents
  plus a set of existing directories.  `Path.exists()` is true for files and
  directories; `read_text()` on a directory raises (`IsADirectoryError`).
- The external `query` call is an oracle: a function from the prompt, the
  options object and the current filesystem to the streamed message list and
  the filesystem as mutated by the external agent.
- `await`-ing the single coroutine is evaluation; `asyncio.run` is the
  identity on the denoted value.
- Console printing (`verbose`, `callback`) has no modelled effect; the
  parameters are kept for signature fidelity.
- Each function also returns the trace of its filesystem / external-call
  events, in execution order, so that ordering properties can be stated.
- Paths: `Path(p).resolve()` is lexical resolution against the working
  directory (no symlinks are modelled), `Path(p).parent` is the lexical
  parent, and `mkdir(parents=True, exist_ok=True)` creates every missing
  ancestor directory, failing with `FileExistsError` when a regular file
  occupies one of the needed paths.
-/

deriving instance DecidableEq for Except

namespace CsvAgent

/-- A filesystem: text files keyed by absolute path, and the set of existing
directories (also absolute paths). -/
structure FS where
  files : List (String × String)
  dirs : List String
deriving DecidableEq

/-- An agent message.  The script only ever looks at an optional textual
`content` attribute, for display; the structure is otherwise opaque. -/
structure Message where
  content : Option String
deriving DecidableEq

/-- The configuration object passed to the external query call
(`ClaudeCodeOptions`), restricted to the fields the script sets. -/
structure ClaudeCodeOptions where
  system_prompt : String
  allowed_tools : List String
  permission_mode : String
  max_turns : Nat
deriving DecidableEq

/-- Observable events of one invocation, in execution order. -/
inductive Event where
  | mkdirp (path : String)
  | queryCall (prompt : String) (options : ClaudeCodeOptions)
  | streamMsg (msg : Message)
  | streamDone
  | existsCheck (path : String) (result : Bool)
  | readFile (path : String)
deriving DecidableEq

/-- Normal return or a propagated Python exception. -/
inductive Outcome where
  | ok (s : String)
  | exn (e : String)
deriving DecidableEq

/-- Result of one invocation: the returned value (or exception), the final
filesystem, and the event trace. -/
structure RunResult where
  out : Outcome
  fs : FS
  trace : List Event
deriving DecidableEq

/-- The external `query` boundary: from the prompt, the options and the
filesystem to the streamed messages and the filesystem as mutated by the
external agent while streaming. -/
abbrev Oracle := String → ClaudeCodeOptions → FS → List Message × FS

/-! ## Path model -/

/-- The path separator. -/
def slash : Char := Char.ofNat 47

/-- A single-quote character as a string (used inside prompt templates). -/
def squote : String := String.singleton (Char.ofNat 39)

/-- Split a path into its components, dropping empty components and `.`
(as `pathlib.PurePath` normalisation does; `..` is kept). -/
def pathComponents (p : String) : List String :=
  ((p.data.splitOn slash).map (fun cs => String.mk cs)).filter
    (fun c => c != "" && c != ".")

/-- Whether a path is absolute (starts with the separator). -/
def isAbsolute (p : String) : Bool :=
  match p.data with
  | [] => false
  | c :: _ => c == slash

/-- Lexical `..` elimination, as `Path.resolve()` does in the absence of
symbolic links. -/
def normComps (cs : List String) : List String :=
  cs.foldl (fun acc c => if c == ".." then acc.dropLast else acc ++ [c]) []

/-- Assemble an absolute path from components. -/
def joinAbs (cs : List String) : String :=
  "/" ++ String.intercalate "/" cs

/-- `str(Path(p).resolve())` with working directory `cwd` (itself absolute):
relative paths are interpreted against `cwd`, then `.` and `..` are
eliminated lexically. -/
def resolvePath (cwd p : String) : String :=
  if isAbsolute p then joinAbs (normComps (pathComponents p))
  else joinAbs (normComps (pathComponents cwd ++ pathComponents p))

/-- `str(Path(p).parent)`: the lexical parent (drop the last component;
the parent of a single-component relative path is `.`). -/
def parentPath (p : String) : String :=
  let cs := pathComponents p
  if isAbsolute p then joinAbs cs.dropLast
  else if cs.dropLast.isEmpty then "."
  else String.intercalate "/" cs.dropLast

/-- Content of the text file at absolute path `p`, when one exists. -/
def fileRead (fs : FS) (p : String) : Option String :=
  fs.files.lookup p

/-- `Path(p).exists()`: true when a file or a directory is at `p`. -/
def pathExists (fs : FS) (p : String) : Bool :=
  (fileRead fs p).isSome || fs.dirs.contains p

/-- Every ancestor of absolute path `p`, outermost first, `p` included. -/
def ancestorPaths (p : String) : List String :=
  let cs := pathComponents p
  (List.range cs.length).map (fun i => joinAbs (cs.take (i + 1)))

/-- Create one directory (`exist_ok` semantics): a no-op when the directory
exists, an error when a regular file occupies the path. -/
def mkdirStep (fs : FS) (a : String) : Except String FS :=
  if (fileRead fs a).isSome then Except.error "FileExistsError"
  else if fs.dirs.contains a then Except.ok fs
  else Except.ok ⟨fs.files, fs.dirs ++ [a]⟩

/-- Run `mkdirStep` over a list of directories, stopping at the first
error. -/
def mkdirFold : FS → List String → Except String FS
  | fs, [] => Except.ok fs
  | fs, a :: l =>
    match mkdirStep fs a with
    | Except.error e => Except.error e
    | Except.ok fs2 => mkdirFold fs2 l

/-- `Path(p).mkdir(parents=True, exist_ok=True)` on the absolute path `p`. -/
def mkdirParents (fs : FS) (p : String) : Except String FS :=
  mkdirFold fs (ancestorPaths p)

/-! ## Embedded constants of `csv_analysis_agent.py` -/

/-- The module-level system prompt `DATA_ANALYSIS_SYSTEM_PROMPT`,
verbatim. -/
def DATA_ANALYSIS_SYSTEM_PROMPT : String :=
  "You are an expert data analyst specializing in CSV data analysis.\n\nWhen analyzing data, follow this iterative process:\n\n## PHASE 1: DATA EXPLORATION\n1. Read the CSV file to understand its structure\n2. Check the shape (rows, columns)\n3. Examine column names and data types\n4. Identify any missing or null values\n5. Look at sample rows to understand the data\n\n## PHASE 2: ANALYSIS\nBased on the user" ++ squote ++ "s specific question:\n1. Write Python code using pandas to analyze the data\n2. Execute the code and observe the results\n3. If the results are incomplete or raise new questions, run additional analysis\n4. Continue iterating until you have comprehensive insights\n\n## PHASE 3: SYNTHESIS\n1. Compile your findings into clear, actionable insights\n2. Answer the user" ++ squote ++ "s question directly with supporting data\n3. Include relevant statistics and patterns discovered\n4. Write your final analysis to the output file\n\n## GUIDELINES\n- Always use Python with pandas for data manipulation\n- Show your work by printing intermediate results\n- If you encounter errors, debug and retry\n- Be thorough but focused on the user" ++ squote ++ "s question\n- Support all conclusions with actual data from the CSV\n- Save your final analysis report as plain text\n"

/-- The `ClaudeCodeOptions` value both async functions construct: the module
system prompt, the fixed tool allow-list, `acceptEdits`, and 30 turns. -/
def agentOptions : ClaudeCodeOptions :=
  ClaudeCodeOptions.mk DATA_ANALYSIS_SYSTEM_PROMPT
    ["Bash", "Read", "Write", "Glob", "Grep"] "acceptEdits" 30

/-- The `full_prompt` f-string of `analyze_csv`, verbatim, with the resolved
absolute paths and the user prompt interpolated. -/
def buildPrompt (csv_abs_path user_prompt output_abs_path : String) : String :=
  "\nAnalyze the CSV file located at: " ++ csv_abs_path ++
  "\n\nUser" ++ squote ++ "s Question/Request:\n" ++ user_prompt ++
  "\n\nInstructions:\n1. Start by reading and exploring the CSV file structure using Python with pandas\n2. Use the Bash tool to run Python code for analysis\n3. Iterate as needed to fully answer the question\n4. Save your final analysis and conclusions to: " ++ output_abs_path ++
  "\n\nImportant: Use Python code execution via Bash to perform all data analysis.\nExample: python3 -c \"import pandas as pd; df = pd.read_csv(" ++ squote ++ csv_abs_path ++ squote ++ "); print(df.head())\"\n\nBegin your analysis now.\n"

/-- The `full_prompt` f-string of `analyze_csv_streaming`, verbatim. -/
def buildStreamingPrompt (csv_abs_path user_prompt output_abs_path : String) : String :=
  "\nAnalyze the CSV file located at: " ++ csv_abs_path ++
  "\n\nUser" ++ squote ++ "s Question/Request:\n" ++ user_prompt ++
  "\n\nSave your final analysis to: " ++ output_abs_path ++
  "\n\nUse Python with pandas for all data analysis operations.\n"

/-- The fallback sentence `analyze_csv` returns when no output file exists. -/
def analyzeFallback : String :=
  "Analysis completed but no report file was generated. Check agent output above."

/-- The fallback sentence `analyze_csv_streaming` returns when no output file
exists. -/
def streamingFallback : String :=
  "Analysis complete. Check the output file."

/-! ## `csv_analysis_agent.py` functions -/

/-- `analyze_csv(csv_path, user_prompt, output_path, verbose)`: ensure the
output directory exists, resolve absolute paths, build the prompt, drain the
external stream, then read the report file if it exists, else return the
fallback sentence.  `verbose` only controls printing and has no modelled
effect. -/
def analyze_csv (oracle : Oracle) (cwd : String) (fs0 : FS)
    (csv_path user_prompt output_path : String) (verbose : Bool) : RunResult :=
  let parentAbs := resolvePath cwd (parentPath output_path)
  match mkdirParents fs0 parentAbs with
  | Except.error e => RunResult.mk (Outcome.exn e) fs0 [Event.mkdirp parentAbs]
  | Except.ok fs1 =>
    let csv_abs_path := resolvePath cwd csv_path
    let output_abs_path := resolvePath cwd output_path
    let full_prompt := buildPrompt csv_abs_path user_prompt output_abs_path
    let streamed := oracle full_prompt agentOptions fs1
    let msgs := streamed.1
    let fs2 := streamed.2
    let ex := pathExists fs2 output_abs_path
    let tr := Event.mkdirp parentAbs :: Event.queryCall full_prompt agentOptions ::
      (msgs.map Event.streamMsg ++ [Event.streamDone, Event.existsCheck output_abs_path ex])
    if ex then
      match fileRead fs2 output_abs_path with
      | some report_content =>
        RunResult.mk (Outcome.ok report_content) fs2 (tr ++ [Event.readFile output_abs_path])
      | none =>
        RunResult.mk (Outcome.exn "IsADirectoryError") fs2 (tr ++ [Event.readFile output_abs_path])
    else RunResult.mk (Outcome.ok analyzeFallback) fs2 tr

/-- `analyze_csv_streaming(csv_path, user_prompt, output_path, callback)`:
same shape as `analyze_csv` with a shorter prompt template and a different
fallback sentence.  `callback` only feeds message contents to the caller for
display and has no modelled effect. -/
def analyze_csv_streaming (oracle : Oracle) (cwd : String) (fs0 : FS)
    (csv_path user_prompt output_path : String)
    (callback : Option (Option String → Unit)) : RunResult :=
  let parentAbs := resolvePath cwd (parentPath output_path)
  match mkdirParents fs0 parentAbs with
  | Except.error e => RunResult.mk (Outcome.exn e) fs0 [Event.mkdirp parentAbs]
  | Except.ok fs1 =>
    let csv_abs_path := resolvePath cwd csv_path
    let output_abs_path := resolvePath cwd output_path
    let full_prompt := buildStreamingPrompt csv_abs_path user_prompt output_abs_path
    let streamed := oracle full_prompt agentOptions fs1
    let msgs := streamed.1
    let fs2 := streamed.2
    let ex := pathExists fs2 output_abs_path
    let tr := Event.mkdirp parentAbs :: Event.queryCall full_prompt agentOptions ::
      (msgs.map Event.streamMsg ++ [Event.streamDone, Event.existsCheck output_abs_path ex])
    if ex then
      match fileRead fs2 output_abs_path with
      | some report_content =>
        RunResult.mk (Outcome.ok report_content) fs2 (tr ++ [Event.readFile output_abs_path])
      | none =>
        RunResult.mk (Outcome.exn "IsADirectoryError") fs2 (tr ++ [Event.readFile output_abs_path])
    else RunResult.mk (Outcome.ok streamingFallback) fs2 tr

/-- `asyncio.run(coro)`: run the single coroutine to completion and return
its value. -/
def asyncioRun {α : Type} (a : α) : α := a

/-- `run_analysis(csv_path, user_prompt, output_path, verbose)`: the
synchronous wrapper, `asyncio.run(analyze_csv(...))`. -/
def run_analysis (oracle : Oracle) (cwd : String) (fs0 : FS)
    (csv_path user_prompt output_path : String) (verbose : Bool) : RunResult :=
  asyncioRun (analyze_csv oracle cwd fs0 csv_path user_prompt output_path verbose)

/-! ## `main.py` -/

/-- Module-level default CSV path. -/
def CSV_FILE_PATH : String := "data/sample_sales.csv"

/-- Module-level default user prompt. -/
def USER_PROMPT : String :=
  "\nAnalyze this sales data and provide:\n1. Summary statistics for all numeric columns\n2. Top 3 products by total revenue\n3. Daily revenue trends\n4. Any interesting patterns or insights you discover\n"

/-- Module-level default output path. -/
def OUTPUT_PATH : String := "output/analysis_report.txt"

/-- `validate_environment()`: `os.environ.get("ANTHROPIC_API_KEY")` must be
set and truthy (the empty string is falsy in Python). -/
def validate_environment (env : Option String) : Bool :=
  match env with
  | none => false
  | some key => key != ""

/-- `validate_csv_path(csv_path)`: `Path(csv_path).exists()` against the
working directory. -/
def validate_csv_path (fs : FS) (cwd : String) (csv_path : String) : Bool :=
  pathExists fs (resolvePath cwd csv_path)

/-- Result of `main_async`: the returned exit code, the final filesystem, and
the trace of the `analyze_csv` call when one was made. -/
structure MainResult where
  exitCode : Nat
  fs : FS
  trace : List Event
deriving DecidableEq

/-- `main_async()`: validate the environment, validate the CSV path, then run
`analyze_csv` once inside `try`.  An exception from the call is caught at
this level and turned into exit code 1; otherwise the exit code is 0. -/
def main_async (oracle : Oracle) (env : Option String) (cwd : String)
    (fs0 : FS) (csvFilePath userPrompt outputPath : String) : MainResult :=
  if !(validate_environment env) then MainResult.mk 1 fs0 []
  else if !(validate_csv_path fs0 cwd csvFilePath) then MainResult.mk 1 fs0 []
  else
    let r := analyze_csv oracle cwd fs0 csvFilePath userPrompt outputPath true
    match r.out with
    | Outcome.ok _ => MainResult.mk 0 r.fs r.trace
    | Outcome.exn _ => MainResult.mk 1 r.fs r.trace

end CsvAgent

namespace CsvAgent

/-! ## Event classifiers used by the ordering property -/

/-- Event classifier: accesses of the output path (existence check or file
read). -/
def isOutputAccess : Event → Bool
  | Event.existsCheck _ _ => true
  | Event.readFile _ => true
  | _ => false

/-- Event classifier: a streamed message from the external call. -/
def isStreamMsg : Event → Bool
  | Event.streamMsg _ => true
  | _ => false

/-- Event classifier: an invocation of the external query call. -/
def isQueryCall : Event → Bool
  | Event.queryCall _ _ => true
  | _ => false

/-! ## Helper lemmas -/

/-- `mkdirFold` never touches the `files` component: directory creation
creates directories only. -/
theorem mkdirFold_files (l : List String) (fs fs1 : FS)
    (h : mkdirFold fs l = Except.ok fs1) : fs1.files = fs.files := by
  induction l generalizing fs with
  | nil =>
    unfold mkdirFold at h
    cases h
    rfl
  | cons a l ih =>
    unfold mkdirFold at h
    split at h
    · cases h
    · next fs2 heq =>
      unfold mkdirStep at heq
      split at heq
      · cases heq
      · split at heq
        · cases heq
          exact ih fs h
        · cases heq
          have := ih ⟨fs.files, fs.dirs ++ [a]⟩ h
          simpa using this

/-- `mkdirParents` never touches the `files` component. -/
theorem mkdirParents_files (fs fs1 : FS) (p : String)
    (h : mkdirParents fs p = Except.ok fs1) : fs1.files = fs.files :=
  mkdirFold_files (ancestorPaths p) fs fs1 h

/-- A trace of the common shape can be cut right before the existence check:
everything before the cut is no output access, everything at or after it is
no streamed message. -/
theorem trace_cut {pAbs prompt : String} {opts : ClaudeCodeOptions}
    {msgs : List Message} {q : String} {bb : Bool} {rest : List Event}
    (hrest : ∀ e ∈ rest, isStreamMsg e = false) :
    ∃ pre post : List Event,
      Event.mkdirp pAbs :: Event.queryCall prompt opts ::
          (List.map Event.streamMsg msgs ++ (Event.streamDone :: Event.existsCheck q bb :: rest))
        = pre ++ post
      ∧ (∀ e ∈ pre, isOutputAccess e = false)
      ∧ (∀ e ∈ post, isStreamMsg e = false) := by
  refine ⟨Event.mkdirp pAbs :: Event.queryCall prompt opts ::
      (List.map Event.streamMsg msgs ++ [Event.streamDone]),
    Event.existsCheck q bb :: rest, by simp, ?_, ?_⟩
  · intro e he
    simp only [List.mem_cons, List.mem_append, List.mem_map] at he
    rcases he with rfl | rfl | ⟨m, hm, rfl⟩ | rfl | h
    · rfl
    · rfl
    · rfl
    · rfl
    · cases h
  · intro e he
    rcases List.mem_cons.mp he with rfl | h
    · rfl
    · exact hrest e h

/-! ## Claim theorems -/

/-- Claim C1: for every invocation of `analyze_csv` in which, after the
external message stream has been consumed to completion, a file exists at
the given output path, the returned value is exactly that file's text
content. -/
theorem analyze_csv_returns_report_content
    (oracle : Oracle) (cwd : String) (fs0 fs1 : FS)
    (csv_path user_prompt output_path : String) (verbose : Bool) (content : String)
    (hmk : mkdirParents fs0 (resolvePath cwd (parentPath output_path)) = Except.ok fs1)
    (hread : fileRead
        (oracle (buildPrompt (resolvePath cwd csv_path) user_prompt (resolvePath cwd output_path))
          agentOptions fs1).2
        (resolvePath cwd output_path) = some content) :
    (analyze_csv oracle cwd fs0 csv_path user_prompt output_path verbose).out
      = Outcome.ok content := by
  simp only [analyze_csv]
  rw [hmk]
  simp [pathExists, hread]

/-- Concrete instance of C1: the agent writes a report file, and its exact
content is returned. -/
theorem analyze_csv_returns_report_content_witness :
    (analyze_csv
      (fun _ _ fs => ([], FS.mk [("/work/output/analysis_report.txt", "report")] fs.dirs))
      "/work" (FS.mk [] ["/work"]) "d.csv" "q" "output/analysis_report.txt" true).out
      = Outcome.ok "report" :=
  analyze_csv_returns_report_content
    (fun _ _ fs => ([], FS.mk [("/work/output/analysis_report.txt", "report")] fs.dirs))
    "/work" (FS.mk [] ["/work"]) (FS.mk [] ["/work", "/work/output"])
    "d.csv" "q" "output/analysis_report.txt" true "report" (by decide) (by decide)

/-- Claim C2 (counterexample to the claim as stated): with a directory
sitting at the output path, no file exists there after the stream completes,
yet `analyze_csv` neither returns the fallback string nor returns at all: it
raises `IsADirectoryError` (since `Path.exists()` is true for a directory,
and `read_text()` on a directory raises).  The stream was consumed to
completion (`streamDone` is in the trace). -/
theorem analyze_csv_fallback_counterexample :
    (fileRead (analyze_csv (fun _ _ fs => ([], fs)) "/work"
        (FS.mk [] ["/work", "/work/out"]) "d.csv" "q" "out" true).fs "/work/out" = none)
    ∧ Event.streamDone ∈ (analyze_csv (fun _ _ fs => ([], fs)) "/work"
        (FS.mk [] ["/work", "/work/out"]) "d.csv" "q" "out" true).trace
    ∧ (analyze_csv (fun _ _ fs => ([], fs)) "/work"
        (FS.mk [] ["/work", "/work/out"]) "d.csv" "q" "out" true).out
        ≠ Outcome.ok analyzeFallback
    ∧ (analyze_csv (fun _ _ fs => ([], fs)) "/work"
        (FS.mk [] ["/work", "/work/out"]) "d.csv" "q" "out" true).out
        = Outcome.exn "IsADirectoryError" := by
  refine ⟨by decide, by decide, by decide, by decide⟩

/-- Claim C2 (amended): for every invocation of `analyze_csv` in which,
after the external message stream has been consumed to completion, nothing
(neither a file nor a directory) exists at the given output path,
`analyze_csv` returns the fixed fallback string, and returns it without
raising. -/
theorem analyze_csv_fallback_when_nothing_at_output
    (oracle : Oracle) (cwd : String) (fs0 fs1 : FS)
    (csv_path user_prompt output_path : String) (verbose : Bool)
    (hmk : mkdirParents fs0 (resolvePath cwd (parentPath output_path)) = Except.ok fs1)
    (hne : pathExists
        (oracle (buildPrompt (resolvePath cwd csv_path) user_prompt (resolvePath cwd output_path))
          agentOptions fs1).2
        (resolvePath cwd output_path) = false) :
    (analyze_csv oracle cwd fs0 csv_path user_prompt output_path verbose).out
      = Outcome.ok analyzeFallback := by
  simp only [analyze_csv]
  rw [hmk]
  simp [hne]

/-- Concrete instance of amended C2: the agent writes nothing, and the
fallback sentence is returned. -/
theorem analyze_csv_fallback_when_nothing_at_output_witness :
    (analyze_csv (fun _ _ fs => ([], fs)) "/work" (FS.mk [] ["/work"])
      "d.csv" "q" "output/analysis_report.txt" true).out
      = Outcome.ok analyzeFallback :=
  analyze_csv_fallback_when_nothing_at_output
    (fun _ _ fs => ([], fs)) "/work" (FS.mk [] ["/work"])
    (FS.mk [] ["/work", "/work/output"])
    "d.csv" "q" "output/analysis_report.txt" true (by decide) (by decide)

/-- Claim C3: when `ANTHROPIC_API_KEY` is unset or empty, `main_async`
returns exit code 1 and the external query call is never invoked (its trace
is empty, so in particular it holds no `queryCall` event). -/
theorem main_async_missing_api_key_exits_one
    (oracle : Oracle) (env : Option String) (cwd : String) (fs0 : FS)
    (csvFilePath userPrompt outputPath : String)
    (henv : env = none ∨ env = some "") :
    (main_async oracle env cwd fs0 csvFilePath userPrompt outputPath).exitCode = 1
    ∧ (main_async oracle env cwd fs0 csvFilePath userPrompt outputPath).trace = [] := by
  rcases henv with h | h <;> subst h <;> simp [main_async, validate_environment]

/-- Concrete instance of C3: unset key. -/
theorem main_async_missing_api_key_exits_one_witness :
    (main_async (fun _ _ fs => ([], fs)) none "/work" (FS.mk [] ["/work"])
      "d.csv" "q" "output/r.txt").exitCode = 1
    ∧ (main_async (fun _ _ fs => ([], fs)) none "/work" (FS.mk [] ["/work"])
      "d.csv" "q" "output/r.txt").trace = [] :=
  main_async_missing_api_key_exits_one (fun _ _ fs => ([], fs)) none "/work"
    (FS.mk [] ["/work"]) "d.csv" "q" "output/r.txt" (Or.inl rfl)

/-- Claim C4 (counterexample to the claim as stated): the claim conditions
on "no file exists at the configured CSV path", but `Path(csv_path).exists()`
is also true for a directory.  With the key set and a directory at the CSV
path, no file exists there, yet validation passes, the external query call
is invoked, and `main_async` returns exit code 0, not 1. -/
theorem main_async_missing_csv_counterexample :
    fileRead (FS.mk [] ["/work", "/work/data"]) (resolvePath "/work" "data") = none
    ∧ validate_environment (some "sk-key") = true
    ∧ (main_async (fun _ _ fs => ([], fs)) (some "sk-key") "/work"
        (FS.mk [] ["/work", "/work/data"]) "data" "q" "output/r.txt").exitCode = 0
    ∧ ((main_async (fun _ _ fs => ([], fs)) (some "sk-key") "/work"
        (FS.mk [] ["/work", "/work/data"]) "data" "q" "output/r.txt").trace.any isQueryCall)
        = true := by
  refine ⟨by decide, by decide, by decide, by decide⟩

/-- Claim C4 (amended): when the API key is set (and truthy) but nothing
(neither a file nor a directory) exists at the configured CSV path — that
is, `Path(csv_path).exists()` is false — `main_async` returns exit code 1
and the external query call is never invoked (its trace is empty). -/
theorem main_async_missing_csv_exits_one
    (oracle : Oracle) (env : Option String) (cwd : String) (fs0 : FS)
    (csvFilePath userPrompt outputPath : String)
    (henv : validate_environment env = true)
    (hcsv : pathExists fs0 (resolvePath cwd csvFilePath) = false) :
    (main_async oracle env cwd fs0 csvFilePath userPrompt outputPath).exitCode = 1
    ∧ (main_async oracle env cwd fs0 csvFilePath userPrompt outputPath).trace = [] := by
  simp [main_async, henv, validate_csv_path, hcsv]

/-- Concrete instance of C4: key set, CSV file absent. -/
theorem main_async_missing_csv_exits_one_witness :
    (main_async (fun _ _ fs => ([], fs)) (some "sk-key") "/work" (FS.mk [] ["/work"])
      "data/sample_sales.csv" "q" "output/r.txt").exitCode = 1
    ∧ (main_async (fun _ _ fs => ([], fs)) (some "sk-key") "/work" (FS.mk [] ["/work"])
      "data/sample_sales.csv" "q" "output/r.txt").trace = [] :=
  main_async_missing_csv_exits_one (fun _ _ fs => ([], fs)) (some "sk-key") "/work"
    (FS.mk [] ["/work"]) "data/sample_sales.csv" "q" "output/r.txt" (by decide) (by decide)

/-- Claim C5 (counterexample to the claim as stated): `analyze_csv` does
perform a filesystem write of its own.  With an external agent that changes
nothing, the filesystem after the call differs from the initial one: the
call created the output directory (`Path(output_path).parent.mkdir`). -/
theorem analyze_csv_performs_write_counterexample :
    (analyze_csv (fun _ _ fs => ([], fs)) "/work" (FS.mk [] ["/work"])
      "data.csv" "q" "output/analysis_report.txt" true).fs ≠ FS.mk [] ["/work"]
    ∧ (analyze_csv (fun _ _ fs => ([], fs)) "/work" (FS.mk [] ["/work"])
      "data.csv" "q" "output/analysis_report.txt" true).fs
      = FS.mk [] ["/work", "/work/output"] := by
  refine ⟨by decide, by decide⟩

/-- Claim C5 (amended): the only filesystem mutation this code performs
itself is creating the output directory; it writes no files.  The `files`
component after the directory-creation step is exactly the initial one, and
the final filesystem of either function is exactly whatever the external
agent made of the post-`mkdir` filesystem. -/
theorem code_creates_directories_but_writes_no_files
    (oracle : Oracle) (cwd : String) (fs0 fs1 : FS)
    (csv_path user_prompt output_path : String) (verbose : Bool)
    (cb : Option (Option String → Unit))
    (hmk : mkdirParents fs0 (resolvePath cwd (parentPath output_path)) = Except.ok fs1) :
    fs1.files = fs0.files
    ∧ (analyze_csv oracle cwd fs0 csv_path user_prompt output_path verbose).fs
        = (oracle (buildPrompt (resolvePath cwd csv_path) user_prompt (resolvePath cwd output_path))
            agentOptions fs1).2
    ∧ (analyze_csv_streaming oracle cwd fs0 csv_path user_prompt output_path cb).fs
        = (oracle (buildStreamingPrompt (resolvePath cwd csv_path) user_prompt (resolvePath cwd output_path))
            agentOptions fs1).2 := by
  refine ⟨mkdirParents_files fs0 fs1 _ hmk, ?_, ?_⟩
  · simp only [analyze_csv, hmk]
    split
    · split <;> rfl
    · rfl
  · simp only [analyze_csv_streaming, hmk]
    split
    · split <;> rfl
    · rfl

/-- Concrete instance of amended C5. -/
theorem code_creates_directories_but_writes_no_files_witness :
    (FS.mk [] ["/work", "/work/output"]).files = (FS.mk ([] : List (String × String)) ["/work"]).files
    ∧ (analyze_csv (fun _ _ fs => ([], fs)) "/work" (FS.mk [] ["/work"])
        "d.csv" "q" "output/analysis_report.txt" true).fs
      = ((fun (_ : String) (_ : ClaudeCodeOptions) (fs : FS) => (([] : List Message), fs))
          (buildPrompt (resolvePath "/work" "d.csv") "q" (resolvePath "/work" "output/analysis_report.txt"))
          agentOptions (FS.mk [] ["/work", "/work/output"])).2
    ∧ (analyze_csv_streaming (fun _ _ fs => ([], fs)) "/work" (FS.mk [] ["/work"])
        "d.csv" "q" "output/analysis_report.txt" none).fs
      = ((fun (_ : String) (_ : ClaudeCodeOptions) (fs : FS) => (([] : List Message), fs))
          (buildStreamingPrompt (resolvePath "/work" "d.csv") "q" (resolvePath "/work" "output/analysis_report.txt"))
          agentOptions (FS.mk [] ["/work", "/work/output"])).2 :=
  code_creates_directories_but_writes_no_files
    (fun _ _ fs => ([], fs)) "/work" (FS.mk [] ["/work"])
    (FS.mk [] ["/work", "/work/output"])
    "d.csv" "q" "output/analysis_report.txt" true none (by decide)

/-- Claim C6: the synchronous wrapper `run_analysis` returns the same value
as awaiting `analyze_csv` directly on the same inputs (`asyncio.run` runs
the single coroutine to completion and returns its value). -/
theorem run_analysis_eq_analyze_csv
    (oracle : Oracle) (cwd : String) (fs0 : FS)
    (csv_path user_prompt output_path : String) (verbose : Bool) :
    run_analysis oracle cwd fs0 csv_path user_prompt output_path verbose
      = analyze_csv oracle cwd fs0 csv_path user_prompt output_path verbose := rfl

/-- Claim C7: path resolution is idempotent and deterministic: two
invocations of `analyze_csv` with the same `csv_path` and `output_path`
under the same working directory embed the same absolute paths into the
constructed prompt (the `queryCall` event of both invocations carries the
prompt built from the very same resolved absolute paths), whatever the
filesystems and external behaviours are. -/
theorem analyze_csv_path_resolution_deterministic
    (oracle1 oracle2 : Oracle) (cwd : String) (fsA fsB fsA1 fsB1 : FS)
    (csv_path user_prompt output_path : String) (v1 v2 : Bool)
    (h1 : mkdirParents fsA (resolvePath cwd (parentPath output_path)) = Except.ok fsA1)
    (h2 : mkdirParents fsB (resolvePath cwd (parentPath output_path)) = Except.ok fsB1) :
    (analyze_csv oracle1 cwd fsA csv_path user_prompt output_path v1).trace.get? 1
      = some (Event.queryCall
          (buildPrompt (resolvePath cwd csv_path) user_prompt (resolvePath cwd output_path))
          agentOptions)
    ∧ (analyze_csv oracle2 cwd fsB csv_path user_prompt output_path v2).trace.get? 1
      = (analyze_csv oracle1 cwd fsA csv_path user_prompt output_path v1).trace.get? 1 := by
  have e1 : (analyze_csv oracle1 cwd fsA csv_path user_prompt output_path v1).trace.get? 1
      = some (Event.queryCall
          (buildPrompt (resolvePath cwd csv_path) user_prompt (resolvePath cwd output_path))
          agentOptions) := by
    simp only [analyze_csv, h1]
    split
    · split <;> rfl
    · rfl
  have e2 : (analyze_csv oracle2 cwd fsB csv_path user_prompt output_path v2).trace.get? 1
      = some (Event.queryCall
          (buildPrompt (resolvePath cwd csv_path) user_prompt (resolvePath cwd output_path))
          agentOptions) := by
    simp only [analyze_csv, h2]
    split
    · split <;> rfl
    · rfl
  exact ⟨e1, e2.trans e1.symm⟩

/-- Concrete instance of C7: two invocations with the same relative paths. -/
theorem analyze_csv_path_resolution_deterministic_witness :
    (analyze_csv (fun _ _ fs => ([], fs)) "/work" (FS.mk [] ["/work"])
        "data.csv" "q" "output/analysis_report.txt" true).trace.get? 1
      = some (Event.queryCall
          (buildPrompt (resolvePath "/work" "data.csv") "q"
            (resolvePath "/work" "output/analysis_report.txt"))
          agentOptions)
    ∧ (analyze_csv (fun _ _ fs => ([], fs)) "/work" (FS.mk [] ["/work"])
        "data.csv" "q" "output/analysis_report.txt" false).trace.get? 1
      = (analyze_csv (fun _ _ fs => ([], fs)) "/work" (FS.mk [] ["/work"])
        "data.csv" "q" "output/analysis_report.txt" true).trace.get? 1 :=
  analyze_csv_path_resolution_deterministic
    (fun _ _ fs => ([], fs)) (fun _ _ fs => ([], fs)) "/work"
    (FS.mk [] ["/work"]) (FS.mk [] ["/work"])
    (FS.mk [] ["/work", "/work/output"]) (FS.mk [] ["/work", "/work/output"])
    "data.csv" "q" "output/analysis_report.txt" true false (by decide) (by decide)

/-- Claim C8: in every execution of `analyze_csv`, the output file is read
(and its existence checked) only after the external stream has been fully
drained: the trace splits into a prefix with no output-path access (holding
every streamed message) and a suffix with no streamed message (holding
every output-path access). -/
theorem analyze_csv_reads_only_after_stream
    (oracle : Oracle) (cwd : String) (fs0 : FS)
    (csv_path user_prompt output_path : String) (verbose : Bool) :
    ∃ pre post : List Event,
      (analyze_csv oracle cwd fs0 csv_path user_prompt output_path verbose).trace = pre ++ post
      ∧ (∀ e ∈ pre, isOutputAccess e = false)
      ∧ (∀ e ∈ post, isStreamMsg e = false) := by
  simp only [analyze_csv]
  split
  · refine ⟨[Event.mkdirp (resolvePath cwd (parentPath output_path))], [], by simp, ?_, by simp⟩
    intro e he
    rcases List.mem_singleton.mp he with rfl
    rfl
  · split
    · split
      all_goals (
        simp only [List.cons_append, List.nil_append, List.append_assoc] ;
        exact trace_cut (by intro e he; rcases List.mem_singleton.mp he with rfl; rfl))
    · exact trace_cut (by intro e he; cases he)

/-- Claim C9: the built prompt is forwarded unmodified to the external query
call (the `queryCall` event carries exactly the prompt built from the
resolved paths), and the configuration passed with it is the one static
options value: the module system prompt, the fixed tool allow-list,
`acceptEdits`, and a limit of 30 turns, on every call. -/
theorem analyze_csv_forwards_prompt_with_static_config
    (oracle : Oracle) (cwd : String) (fs0 fs1 : FS)
    (csv_path user_prompt output_path : String) (verbose : Bool)
    (hmk : mkdirParents fs0 (resolvePath cwd (parentPath output_path)) = Except.ok fs1) :
    (analyze_csv oracle cwd fs0 csv_path user_prompt output_path verbose).trace.get? 1
      = some (Event.queryCall
          (buildPrompt (resolvePath cwd csv_path) user_prompt (resolvePath cwd output_path))
          agentOptions)
    ∧ agentOptions = ClaudeCodeOptions.mk DATA_ANALYSIS_SYSTEM_PROMPT
        ["Bash", "Read", "Write", "Glob", "Grep"] "acceptEdits" 30 := by
  constructor
  · simp only [analyze_csv, hmk]
    split
    · split <;> rfl
    · rfl
  · rfl

/-- Concrete instance of C9. -/
theorem analyze_csv_forwards_prompt_with_static_config_witness :
    (analyze_csv (fun _ _ fs => ([], fs)) "/work" (FS.mk [] ["/work"])
        "data.csv" "q" "output/analysis_report.txt" true).trace.get? 1
      = some (Event.queryCall
          (buildPrompt (resolvePath "/work" "data.csv") "q"
            (resolvePath "/work" "output/analysis_report.txt"))
          agentOptions)
    ∧ agentOptions = ClaudeCodeOptions.mk DATA_ANALYSIS_SYSTEM_PROMPT
        ["Bash", "Read", "Write", "Glob", "Grep"] "acceptEdits" 30 :=
  analyze_csv_forwards_prompt_with_static_config
    (fun _ _ fs => ([], fs)) "/work" (FS.mk [] ["/work"])
    (FS.mk [] ["/work", "/work/output"])
    "data.csv" "q" "output/analysis_report.txt" true (by decide)

/-- Claim C10 (counterexample to the claim as stated): the claim conditions
on identical external behaviour producing no output *file*, but with a
directory at the output path (no file exists there for either run) neither
function returns its fallback sentence: both raise the same
`IsADirectoryError`, so the two functions return *equal* results. -/
theorem analyze_csv_fallbacks_differ_counterexample :
    fileRead (analyze_csv (fun _ _ fs => ([], fs)) "/work"
        (FS.mk [] ["/work", "/work/rep"]) "d.csv" "q" "rep" true).fs "/work/rep" = none
    ∧ fileRead (analyze_csv_streaming (fun _ _ fs => ([], fs)) "/work"
        (FS.mk [] ["/work", "/work/rep"]) "d.csv" "q" "rep" none).fs "/work/rep" = none
    ∧ (analyze_csv (fun _ _ fs => ([], fs)) "/work"
        (FS.mk [] ["/work", "/work/rep"]) "d.csv" "q" "rep" true).out
        = Outcome.exn "IsADirectoryError"
    ∧ (analyze_csv (fun _ _ fs => ([], fs)) "/work"
        (FS.mk [] ["/work", "/work/rep"]) "d.csv" "q" "rep" true).out
        = (analyze_csv_streaming (fun _ _ fs => ([], fs)) "/work"
        (FS.mk [] ["/work", "/work/rep"]) "d.csv" "q" "rep" none).out := by
  refine ⟨by decide, by decide, by decide, by decide⟩

/-- Claim C10 (amended): the fallback values of the two async entry
functions differ: when *nothing* (neither a file nor a directory) exists at
the output path after the stream ends, `analyze_csv` returns "Analysis
completed but no report file was generated. Check agent output above."
while `analyze_csv_streaming` returns "Analysis complete. Check the output
file.", so for identical inputs and external behaviour leaving nothing at
the output path the two functions return unequal results. -/
theorem analyze_csv_fallbacks_differ
    (oracle : Oracle) (cwd : String) (fs0 fs1 : FS)
    (csv_path user_prompt output_path : String) (verbose : Bool)
    (cb : Option (Option String → Unit))
    (hmk : mkdirParents fs0 (resolvePath cwd (parentPath output_path)) = Except.ok fs1)
    (hA : pathExists
        (oracle (buildPrompt (resolvePath cwd csv_path) user_prompt (resolvePath cwd output_path))
          agentOptions fs1).2 (resolvePath cwd output_path) = false)
    (hS : pathExists
        (oracle (buildStreamingPrompt (resolvePath cwd csv_path) user_prompt (resolvePath cwd output_path))
          agentOptions fs1).2 (resolvePath cwd output_path) = false) :
    (analyze_csv oracle cwd fs0 csv_path user_prompt output_path verbose).out
      = Outcome.ok analyzeFallback
    ∧ (analyze_csv_streaming oracle cwd fs0 csv_path user_prompt output_path cb).out
      = Outcome.ok streamingFallback
    ∧ (analyze_csv oracle cwd fs0 csv_path user_prompt output_path verbose).out
      ≠ (analyze_csv_streaming oracle cwd fs0 csv_path user_prompt output_path cb).out := by
  have hone : (analyze_csv oracle cwd fs0 csv_path user_prompt output_path verbose).out
      = Outcome.ok analyzeFallback := by
    simp only [analyze_csv, hmk]
    simp [hA]
  have htwo : (analyze_csv_streaming oracle cwd fs0 csv_path user_prompt output_path cb).out
      = Outcome.ok streamingFallback := by
    simp only [analyze_csv_streaming, hmk]
    simp [hS]
  refine ⟨hone, htwo, ?_⟩
  rw [hone, htwo]
  decide

/-- Concrete instance of C10: same inputs, agent writes nothing, unequal
results. -/
theorem analyze_csv_fallbacks_differ_witness :
    (analyze_csv (fun _ _ fs => ([], fs)) "/work" (FS.mk [] ["/work"])
      "d.csv" "q" "output/analysis_report.txt" true).out = Outcome.ok analyzeFallback
    ∧ (analyze_csv_streaming (fun _ _ fs => ([], fs)) "/work" (FS.mk [] ["/work"])
      "d.csv" "q" "output/analysis_report.txt" none).out = Outcome.ok streamingFallback
    ∧ (analyze_csv (fun _ _ fs => ([], fs)) "/work" (FS.mk [] ["/work"])
      "d.csv" "q" "output/analysis_report.txt" true).out
      ≠ (analyze_csv_streaming (fun _ _ fs => ([], fs)) "/work" (FS.mk [] ["/work"])
      "d.csv" "q" "output/analysis_report.txt" none).out :=
  analyze_csv_fallbacks_differ
    (fun _ _ fs => ([], fs)) "/work" (FS.mk [] ["/work"])
    (FS.mk [] ["/work", "/work/output"])
    "d.csv" "q" "output/analysis_report.txt" true none
    (by decide) (by decide) (by decide)

end CsvAgent
